import Mathlib

/-!
Verification development for the Cortexa frontend (cortex_ui).

The TypeScript sources are shallowly embedded: JavaScript strings are modelled
as their character sequences (`List Char`), React component state as explicit
records, and each event handler as a pure state-transition function
parameterized by the results of the network calls it awaits.  Fallible API
calls are modelled with `Except ApiError`.  Numeric confidence values are
modelled as rationals.
-/

namespace Cortexa

/-- JavaScript strings, modelled as character sequences.  `String.prototype.slice(0, n)`
is `List.take n`, `.length` is `List.length`, `+` is `List.append`. -/
abbrev JStr := List Char

/-- Model of `String.prototype.trim()`: removes whitespace from both ends. -/
def jsTrim (s : JStr) : JStr :=
  ((s.dropWhile Char.isWhitespace).reverse.dropWhile Char.isWhitespace).reverse

/-! ## Data model (src/cortex_ui/src/types/index.ts) -/

/-- Message author role (`'user' | 'assistant'`). -/
inductive Role where
  | user
  | assistant
deriving DecidableEq

/-- Citation from types/index.ts: `{text, page, confidence, chunk_id}`. -/
structure Citation where
  text : JStr
  page : Int
  confidence : ℚ
  chunk_id : String
deriving DecidableEq

/-- Frontend chat message (`Message` in types/index.ts). -/
structure Message where
  id : String
  role : Role
  content : JStr
  citations : Option (List Citation)
deriving DecidableEq

/-- Persisted chat session (`ChatSession` in types/index.ts). -/
structure ChatSession where
  id : String
  doc_id : String
  title : JStr
  created_at : String
  updated_at : String
deriving DecidableEq

/-- Persisted session message (`ChatMessage` in types/index.ts); named apart from
the frontend `Message` record. -/
structure SessionMessage where
  id : String
  session_id : String
  role : Role
  content : JStr
  citations : Option (List Citation)
  created_at : String
deriving DecidableEq

/-- ChatSessionWithMessages: a session together with its ordered messages. -/
structure ChatSessionWithMessages where
  session : ChatSession
  messages : List SessionMessage
deriving DecidableEq

/-- Frontend document state (`Document` in types/index.ts); `uploadedAt` is an
abstract timestamp. -/
structure Document where
  id : String
  filename : JStr
  chunks : Nat
  uploadedAt : Nat
deriving DecidableEq

/-- Backend document listing entry (`DocumentInfo` in types/index.ts). -/
structure DocumentInfo where
  doc_id : String
  filename : JStr
  chunks : Nat
deriving DecidableEq

/-- Response of POST /ask (`AskResponse` in types/index.ts). -/
structure AskResponse where
  answer : JStr
  citations : List Citation
deriving DecidableEq

/-- Tones admitted by the `Tone` union type in types/index.ts. -/
inductive Tone where
  | insightful
  | supportive
  | analytical
  | creative
  | direct
deriving DecidableEq

/-- Styles admitted by the `Style` union type in types/index.ts. -/
inductive Style where
  | concise
  | detailed
  | bullet_points
  | narrative
deriving DecidableEq

/-- The string value of a `Tone`, as written in the TypeScript union type. -/
def Tone.str : Tone → String
  | .insightful => "insightful"
  | .supportive => "supportive"
  | .analytical => "analytical"
  | .creative => "creative"
  | .direct => "direct"

/-- The string value of a `Style`, as written in the TypeScript union type. -/
def Style.str : Style → String
  | .concise => "concise"
  | .detailed => "detailed"
  | .bullet_points => "bullet_points"
  | .narrative => "narrative"

/-! ## API layer (src/cortex_ui/src/lib/api.ts) -/

/-- Structured error raised by the API layer: `class ApiError extends Error`
carrying the HTTP status and a message. -/
structure ApiError where
  status : Nat
  message : String
deriving DecidableEq

/-- Abstraction of an HTTP response body as far as `handleResponse` inspects it:
it either parses as JSON with a `detail` field, parses as JSON without one
(`detail` undefined), or fails to parse as JSON. -/
inductive HttpBody where
  | jsonDetail (detail : String)
  | jsonOther
  | notJson
deriving DecidableEq

/-- An HTTP response as seen by `handleResponse`: `ok` flag, status, body. -/
structure HttpResponse where
  ok : Bool
  status : Nat
  body : HttpBody
deriving DecidableEq

/-- The message `handleResponse` attaches to a failed response:
`error.detail || 'Request failed'` after `response.json().catch(() => ({detail: 'Unknown error'}))`.
An empty `detail` string is falsy in JavaScript, hence the fallback. -/
def detailMessage : HttpBody → String
  | .jsonDetail d => if d = "" then "Request failed" else d
  | .jsonOther => "Request failed"
  | .notJson => "Unknown error"

/-- Model of `handleResponse` (api.ts lines 26-32): a non-ok response raises an
`ApiError` with the response status and the extracted detail message; an ok
response yields the parsed body. -/
def handleResponse (r : HttpResponse) : Except ApiError HttpBody :=
  if r.ok then Except.ok r.body else Except.error ⟨r.status, detailMessage r.body⟩

/-- The message `exportSession` attaches to a failed export response, with its
own fallback string `'Export failed'` (api.ts lines 130-137). -/
def exportDetailMessage : HttpBody → String
  | .jsonDetail d => if d = "" then "Export failed" else d
  | .jsonOther => "Export failed"
  | .notJson => "Unknown error"

/-- Model of the inlined error handling of `exportSession` (api.ts lines 130-137):
a non-ok response raises an `ApiError`; an ok response yields the blob (body). -/
def exportSessionResult (r : HttpResponse) : Except ApiError HttpBody :=
  if r.ok then Except.ok r.body else Except.error ⟨r.status, exportDetailMessage r.body⟩

/-! ## ChatInput component (chat-input.tsx, src/unnamed/part_004) -/

/-- Model of `ChatInput.handleSubmit`: returns the message passed to `onSend`,
or `none` when the guard `!input.trim() || isLoading || disabled` fires. -/
def handleSubmit (input : JStr) (isLoading disabled : Bool) : Option JStr :=
  if jsTrim input = [] ∨ isLoading = true ∨ disabled = true then none
  else some (jsTrim input)

/-! ## Citations component (citations.tsx, src/unnamed/part_004) -/

/-- CitationCard: `const isLongText = citation.text.length > 150`. -/
def isLongText (text : JStr) : Bool := text.length > 150

/-- CitationCard display text: the full text when expanded or short, else
`text.slice(0, 150) + '...'`. -/
def displayText (text : JStr) (isExpanded : Bool) : JStr :=
  if isExpanded = true ∨ isLongText text = false then text
  else text.take 150 ++ "...".data

/-- ConfidenceBar: `const percentage = Math.round(confidence * 100)`.
`Math.round` rounds half away from negative infinity, as does `round`. -/
def percentage (confidence : ℚ) : ℤ := round (confidence * 100)

/-- ConfidenceBar color class selection from the rendered percentage. -/
def barColor (confidence : ℚ) : String :=
  if percentage confidence ≥ 80 then "bg-green-500"
  else if percentage confidence ≥ 60 then "bg-yellow-500"
  else "bg-red-500"

/-! ## FileUpload component (file-upload.tsx, src/unnamed/part_003) -/

/-- The data of a browser `File` object the component inspects. -/
structure FileMeta where
  name : JStr
  size : Nat
deriving DecidableEq

/-- FileUpload component state. -/
structure FileUploadState where
  isDragging : Bool
  file : Option FileMeta
  isUploading : Bool
  error : Option String
deriving DecidableEq

/-- Model of `FileUpload.handleDrop`: stores the first dropped file (when any)
with no extension check, clearing any prior error. -/
def handleDrop (st : FileUploadState) (droppedFile : Option FileMeta) : FileUploadState :=
  let st1 := { st with isDragging := false }
  match droppedFile with
  | some f => { st1 with file := some f, error := none }
  | none => st1

/-- Model of `FileUpload.handleFileSelect`: stores the picked file (when any)
with no extension check, clearing any prior error. -/
def handleFileSelect (st : FileUploadState) (selectedFile : Option FileMeta) : FileUploadState :=
  match selectedFile with
  | some f => { st with file := some f, error := none }
  | none => st

/-- Model of `FileUpload.handleUpload`, parameterized by the result of the
`onUpload` callback: on success the file slot is cleared; on failure the
error message is surfaced; `isUploading` ends false either way. -/
def handleUpload (st : FileUploadState)
    (onUploadResult : FileMeta → Except ApiError Unit) : FileUploadState :=
  match st.file with
  | none => st
  | some f =>
    match onUploadResult f with
    | Except.ok _ => { st with file := none, isUploading := false, error := none }
    | Except.error e => { st with error := some e.message, isUploading := false }

/-! ## Server-side upload validation (modelled from the spec) -/

/-- The fixed extension allow-set, matching the component's accept attribute
`'.pdf,.txt,.md'` and the spec's fixed allow-set. -/
def allowedExtensions : List JStr := [".pdf".data, ".txt".data, ".md".data]

/-- Extension of a filename: the suffix from the last dot, or empty when the
name has no dot. -/
def fileExtension (name : JStr) : JStr :=
  if name.contains '.' then '.' :: (name.reverse.takeWhile (· != '.')).reverse else []

/-- Outcome of the backend upload operation. -/
inductive UploadOutcome where
  | ingested (chunksCreated : Nat)
  | rejectedUnsupportedFormat
deriving DecidableEq

/-- Modelled from the spec: the Document Registry `upload` operation (§4.1, §6)
is backend code absent from src; per the spec it validates that the filename
extension is in the fixed allow-set and rejects with an `UnsupportedFormat`
validation error (HTTP 400) otherwise, ingesting (extract, chunk, embed, index)
only on success.  `chunksOf` abstracts the ingestion result. -/
def uploadModel (filename : JStr) (chunksOf : JStr → Nat) : UploadOutcome :=
  if allowedExtensions.contains (fileExtension filename) then
    UploadOutcome.ingested (chunksOf filename)
  else UploadOutcome.rejectedUnsupportedFormat

/-- The `onUpload` result the modelled backend induces at the component: a
rejected upload surfaces as an `ApiError` with status 400 (spec §6: 400 on
unsupported extension), as raised by `handleResponse` on the 400 response. -/
def onUploadViaBackend (chunksOf : JStr → Nat) (f : FileMeta) : Except ApiError Unit :=
  match uploadModel f.name chunksOf with
  | UploadOutcome.ingested _ => Except.ok ()
  | UploadOutcome.rejectedUnsupportedFormat =>
      Except.error ⟨400, "Unsupported file format"⟩

/-- Number of chunks the backend ingests for the file currently held by the
component, `none` when nothing is ingested. -/
def ingestedChunks (chunksOf : JStr → Nat) (st : FileUploadState) : Option Nat :=
  match st.file with
  | none => none
  | some f =>
    match uploadModel f.name chunksOf with
    | UploadOutcome.ingested n => some n
    | UploadOutcome.rejectedUnsupportedFormat => none

/-! ## ToneSelector (tone-selector.tsx) -/

/-- An entry of the `TONES` constant in tone-selector.tsx. -/
structure ToneOption where
  value : Tone
  label : String
  description : String
deriving DecidableEq

/-- An entry of the `STYLES` constant in tone-selector.tsx. -/
structure StyleOption where
  value : Style
  label : String
deriving DecidableEq

/-- The `TONES` selector list from tone-selector.tsx. -/
def TONES : List ToneOption :=
  [⟨Tone.insightful, "Insightful", "Deep, thoughtful analysis"⟩,
   ⟨Tone.supportive, "Supportive", "Warm and encouraging"⟩,
   ⟨Tone.analytical, "Analytical", "Logical and objective"⟩,
   ⟨Tone.creative, "Creative", "Imaginative exploration"⟩,
   ⟨Tone.direct, "Direct", "Concise and straightforward"⟩]

/-- The `STYLES` selector list from tone-selector.tsx. -/
def STYLES : List StyleOption :=
  [⟨Style.concise, "Concise"⟩,
   ⟨Style.detailed, "Detailed"⟩,
   ⟨Style.bullet_points, "Bullet Points"⟩,
   ⟨Style.narrative, "Narrative"⟩]

/-! ## InterpretPage (src/cortex_ui/src/app/interpret/page.tsx) -/

/-- InterpretPage component state. -/
structure InterpretState where
  input : JStr
  context : JStr
  tone : Tone
  style : Style
  interpretation : Option JStr
  isLoading : Bool
  error : Option String
  copied : Bool
deriving DecidableEq

/-- The initial state of InterpretPage, from its `useState` initializers. -/
def initialInterpretState : InterpretState :=
  { input := [], context := [], tone := Tone.insightful, style := Style.concise,
    interpretation := none, isLoading := false, error := none, copied := false }

/-- Model of `InterpretPage.handleClear`. -/
def handleClear (st : InterpretState) : InterpretState :=
  { st with input := [], context := [], interpretation := none, error := none,
            tone := Tone.insightful, style := Style.concise }

/-! ## DocumentsPage (src/cortex_ui/src/app/documents/page.tsx) -/

/-- DocumentsPage component state. -/
structure DocumentsState where
  documents : List Document
  selectedDoc : Option Document
  messages : List Message
  error : Option String
  isLoading : Bool
  sessions : List ChatSession
  currentSessionId : Option String
  isLoadingSessions : Bool
deriving DecidableEq

/-- The mapping applied to fetched session messages before they are stored in
the `messages` state (documents/page.tsx lines 65-70 and 85-90). -/
def messageOfSessionMessage (m : SessionMessage) : Message :=
  { id := m.id, role := m.role, content := m.content, citations := m.citations }

/-- Model of `fetchDocuments`, parameterized by the result of `listDocuments`.
The catch block only logs to the console (`console.error`), so on failure the
page state is unchanged apart from the `finally` reset of `isLoading`. -/
def fetchDocuments (st : DocumentsState) (now : Nat)
    (result : Except ApiError (List DocumentInfo)) : DocumentsState :=
  match result with
  | Except.ok docs =>
      { st with
        documents := docs.map (fun d =>
          { id := d.doc_id, filename := d.filename, chunks := d.chunks, uploadedAt := now }),
        isLoading := false }
  | Except.error _ => { st with isLoading := false }

/-- Model of `fetchSessions`, parameterized by the results of `getSessions` and
`getSession`.  A failure of either call lands in the catch block, which only
logs to the console and resets `sessions` to `[]` (overriding the
`setSessions(docSessions)` that already ran when `getSession` is the call
that failed). -/
def fetchSessions (st : DocumentsState) (autoLoadRecent : Bool)
    (listResult : Except ApiError (List ChatSession))
    (getResult : String → Except ApiError ChatSessionWithMessages) : DocumentsState :=
  match listResult with
  | Except.error _ => { st with sessions := [], isLoadingSessions := false }
  | Except.ok docSessions =>
    match docSessions with
    | [] => { st with sessions := docSessions, isLoadingSessions := false }
    | mostRecent :: _ =>
      if autoLoadRecent then
        match getResult mostRecent.id with
        | Except.ok sw =>
            { st with sessions := docSessions,
                      currentSessionId := some mostRecent.id,
                      messages := sw.messages.map messageOfSessionMessage,
                      isLoadingSessions := false }
        | Except.error _ => { st with sessions := [], isLoadingSessions := false }
      else { st with sessions := docSessions, isLoadingSessions := false }

/-- Model of `loadSession`, parameterized by the result of `getSession`. -/
def loadSession (st : DocumentsState) (session : ChatSession)
    (getResult : Except ApiError ChatSessionWithMessages) : DocumentsState :=
  match getResult with
  | Except.ok sw =>
      { st with currentSessionId := some session.id,
                messages := sw.messages.map messageOfSessionMessage }
  | Except.error e => { st with error := some e.message }

/-- The session title `handleAsk` uses for an auto-created session:
`question.slice(0, 50) + (question.length > 50 ? '...' : '')`. -/
def autoTitle (question : JStr) : JStr :=
  question.take 50 ++ (if question.length > 50 then "...".data else [])

/-- The network calls `handleAsk` can issue, in order. -/
inductive ApiCall where
  | createSession (doc_id : String) (title : JStr)
  | ask (question : JStr) (doc_id : String) (session_id : Option String)
deriving DecidableEq

/-- Model of `handleAsk` (documents/page.tsx lines 177-221), parameterized by
the results of `createSession` and `askQuestion` and by the clock value `now`
used for message ids.  Returns the new state and the list of issued calls.
When no session is active, a session is first created; if that creation fails
the handler logs to the console and continues without session persistence
(`session_id` undefined in the ask request).  The optimistic user message is
appended before the ask call; on ask failure only the error state is set. -/
def handleAsk (st : DocumentsState) (question : JStr) (now : Nat)
    (createResult : Except ApiError ChatSession)
    (askResult : Except ApiError AskResponse) : DocumentsState × List ApiCall :=
  match st.selectedDoc with
  | none => (st, [])
  | some doc =>
    let step1 : Option String × DocumentsState × List ApiCall :=
      match st.currentSessionId with
      | some sid => (some sid, st, [])
      | none =>
        match createResult with
        | Except.ok session =>
            (some session.id,
             { st with currentSessionId := some session.id,
                       sessions := session :: st.sessions },
             [ApiCall.createSession doc.id (autoTitle question)])
        | Except.error _ => (none, st, [ApiCall.createSession doc.id (autoTitle question)])
    let sessionId := step1.1
    let st1 := step1.2.1
    let calls1 := step1.2.2
    let userMessage : Message :=
      { id := toString now, role := Role.user, content := question, citations := none }
    let st2 := { st1 with messages := st1.messages ++ [userMessage] }
    let calls := calls1 ++ [ApiCall.ask question doc.id sessionId]
    match askResult with
    | Except.ok resp =>
      let assistantMessage : Message :=
        { id := toString (now + 1), role := Role.assistant,
          content := resp.answer, citations := some resp.citations }
      ({ st2 with messages := st2.messages ++ [assistantMessage] }, calls)
    | Except.error e => ({ st2 with error := some e.message }, calls)

/-- The inline error banner near the chat area (documents/page.tsx lines
345-349) renders exactly when the error state is set. -/
def errorBannerShown (st : DocumentsState) : Bool := st.error.isSome

/-! ## Concrete instances used by witnesses and counterexamples -/

/-- A concrete document. -/
def exDoc : Document := { id := "doc-1", filename := "notes.txt".data, chunks := 3, uploadedAt := 0 }

/-- A concrete session belonging to `exDoc`. -/
def exSession : ChatSession :=
  { id := "sess-1", doc_id := "doc-1", title := "Chat".data,
    created_at := "t0", updated_at := "t1" }

/-- A concrete session with one stored message. -/
def exSessionWithMessages : ChatSessionWithMessages :=
  { session := exSession,
    messages := [{ id := "m-1", session_id := "sess-1", role := Role.user,
                   content := "hello".data, citations := none, created_at := "t0" }] }

/-- A concrete answer. -/
def exAnswer : AskResponse := { answer := "yes".data, citations := [] }

/-- A concrete page state with `exDoc` selected and session `sess-1` active. -/
def exAskState : DocumentsState :=
  { documents := [exDoc], selectedDoc := some exDoc, messages := [], error := none,
    isLoading := false, sessions := [exSession], currentSessionId := some "sess-1",
    isLoadingSessions := false }

/-- A concrete page state with `exDoc` selected and no active session. -/
def exNoSessionState : DocumentsState :=
  { documents := [exDoc], selectedDoc := some exDoc, messages := [], error := none,
    isLoading := false, sessions := [], currentSessionId := none,
    isLoadingSessions := false }

/-- A concrete `getSession` environment returning `exSessionWithMessages` for
`sess-1` and a 404 otherwise. -/
def exGetSession (sessionId : String) : Except ApiError ChatSessionWithMessages :=
  if sessionId = "sess-1" then Except.ok exSessionWithMessages
  else Except.error ⟨404, "Session not found"⟩

/-- A concrete file whose extension is outside the allow-set. -/
def exBadFile : FileMeta := { name := "payload.exe".data, size := 9 }

/-- The initial FileUpload component state. -/
def exUploadState : FileUploadState :=
  { isDragging := false, file := none, isUploading := false, error := none }

/-! ## Claim theorems -/

/-- Claim C1: session auto-creation lives in the calling layer (`handleAsk`), not the
engine.  When a question is asked with no active session and the session creation
succeeds, the handler first issues a `createSession` call titled with the first 50
characters of the question (with '...' appended when the question is longer) and then
issues the ask call carrying the created session's id; the sessions list grows exactly
by that explicitly created session, never through the ask call.  When a session is
already active, no session is created at all. -/
theorem ask_autocreates_session_in_calling_layer
    (st : DocumentsState) (question : JStr) (now : Nat) (doc : Document)
    (cr : Except ApiError ChatSession) (ar : Except ApiError AskResponse)
    (hdoc : st.selectedDoc = some doc) :
    (∀ session, st.currentSessionId = none → cr = Except.ok session →
      (handleAsk st question now cr ar).2 =
        [ApiCall.createSession doc.id
           (question.take 50 ++ (if question.length > 50 then "...".data else [])),
         ApiCall.ask question doc.id (some session.id)] ∧
      (handleAsk st question now cr ar).1.sessions = session :: st.sessions ∧
      (handleAsk st question now cr ar).1.currentSessionId = some session.id) ∧
    (∀ sid, st.currentSessionId = some sid →
      (handleAsk st question now cr ar).2 = [ApiCall.ask question doc.id (some sid)] ∧
      (handleAsk st question now cr ar).1.sessions = st.sessions) := by
  constructor
  · intro session hnone hcr
    subst hcr
    cases ar <;> simp [handleAsk, hdoc, hnone, autoTitle]
  · intro sid hsid
    cases ar <;> simp [handleAsk, hdoc, hsid]

/-- Witness for C1: the theorem applied at a concrete state with no active session
(first part) and at one with session `sess-1` active (second part). -/
theorem ask_autocreates_session_in_calling_layer_witness :
    ((handleAsk exNoSessionState "why".data 7 (Except.ok exSession) (Except.ok exAnswer)).2 =
       [ApiCall.createSession exDoc.id
          ("why".data.take 50 ++ (if "why".data.length > 50 then "...".data else [])),
        ApiCall.ask "why".data exDoc.id (some exSession.id)] ∧
     (handleAsk exNoSessionState "why".data 7 (Except.ok exSession) (Except.ok exAnswer)).1.sessions =
       exSession :: exNoSessionState.sessions ∧
     (handleAsk exNoSessionState "why".data 7 (Except.ok exSession) (Except.ok exAnswer)).1.currentSessionId =
       some exSession.id) ∧
    ((handleAsk exAskState "why".data 7 (Except.ok exSession) (Except.ok exAnswer)).2 =
       [ApiCall.ask "why".data exDoc.id (some "sess-1")] ∧
     (handleAsk exAskState "why".data 7 (Except.ok exSession) (Except.ok exAnswer)).1.sessions =
       exAskState.sessions) := by
  refine ⟨?_, ?_⟩
  · exact (ask_autocreates_session_in_calling_layer exNoSessionState "why".data 7 exDoc
      (Except.ok exSession) (Except.ok exAnswer) rfl).1 exSession rfl rfl
  · exact (ask_autocreates_session_in_calling_layer exAskState "why".data 7 exDoc
      (Except.ok exSession) (Except.ok exAnswer) rfl).2 "sess-1" rfl

/-- Counterexample to claim C2 as stated: at a concrete state with an empty message
list, a failed ask leaves the message list different from the pre-ask list (the
optimistic user message remains), even though the error is surfaced. -/
theorem ask_failure_message_list_changed :
    (handleAsk exAskState "why".data 7 (Except.ok exSession)
        (Except.error ⟨502, "upstream down"⟩)).1.messages ≠ exAskState.messages ∧
    (handleAsk exAskState "why".data 7 (Except.ok exSession)
        (Except.error ⟨502, "upstream down"⟩)).1.error = some "upstream down" := by
  constructor
  · intro h
    have h1 := congrArg List.length h
    exact absurd h1 (by decide)
  · rfl

/-- Claim C2 (amended): for every ask request that fails, the frontend surfaces the
error message inline near the chat area (the error state is set and the banner
renders) and the document list is untouched, but the message list after the failure
equals the prior list plus the optimistic user message appended before the request —
that message remains dangling.  The sessions list and the current session id change
only through the session auto-creation step that precedes the failing request:
unchanged when a session was already active or the creation failed, and the created
session prepended and made current when no session was active and the creation
succeeded — never through the failed ask itself. -/
theorem ask_failure_surfaces_error_keeps_optimistic_message
    (st : DocumentsState) (question : JStr) (now : Nat) (doc : Document)
    (cr : Except ApiError ChatSession) (e : ApiError)
    (hdoc : st.selectedDoc = some doc) :
    (handleAsk st question now cr (Except.error e)).1.error = some e.message ∧
    errorBannerShown (handleAsk st question now cr (Except.error e)).1 = true ∧
    (handleAsk st question now cr (Except.error e)).1.messages =
      st.messages ++
        [{ id := toString now, role := Role.user, content := question, citations := none }] ∧
    (handleAsk st question now cr (Except.error e)).1.documents = st.documents ∧
    (∀ sid, st.currentSessionId = some sid →
      (handleAsk st question now cr (Except.error e)).1.sessions = st.sessions ∧
      (handleAsk st question now cr (Except.error e)).1.currentSessionId =
        st.currentSessionId) ∧
    (∀ session, st.currentSessionId = none → cr = Except.ok session →
      (handleAsk st question now cr (Except.error e)).1.sessions = session :: st.sessions ∧
      (handleAsk st question now cr (Except.error e)).1.currentSessionId =
        some session.id) ∧
    (∀ cerr, st.currentSessionId = none → cr = Except.error cerr →
      (handleAsk st question now cr (Except.error e)).1.sessions = st.sessions ∧
      (handleAsk st question now cr (Except.error e)).1.currentSessionId =
        st.currentSessionId) := by
  cases hcs : st.currentSessionId with
  | some sid =>
    refine ⟨?_, ?_, ?_, ?_, ?_, ?_, ?_⟩ <;> simp [handleAsk, hdoc, hcs, errorBannerShown]
  | none =>
    cases cr with
    | ok session =>
      refine ⟨?_, ?_, ?_, ?_, ?_, ?_, ?_⟩ <;> simp [handleAsk, hdoc, hcs, errorBannerShown]
    | error cerr =>
      refine ⟨?_, ?_, ?_, ?_, ?_, ?_, ?_⟩ <;> simp [handleAsk, hdoc, hcs, errorBannerShown]

/-- Witness for amended C2: the theorem applied at three concrete failing asks — with
session `sess-1` active, with no active session and a successful auto-creation, and
with no active session and a failed auto-creation. -/
theorem ask_failure_surfaces_error_keeps_optimistic_message_witness :
    ((handleAsk exAskState "why".data 7 (Except.ok exSession)
        (Except.error ⟨502, "upstream down"⟩)).1.error = some "upstream down" ∧
     (handleAsk exAskState "why".data 7 (Except.ok exSession)
        (Except.error ⟨502, "upstream down"⟩)).1.messages =
       exAskState.messages ++
         [{ id := toString 7, role := Role.user, content := "why".data, citations := none }] ∧
     (handleAsk exAskState "why".data 7 (Except.ok exSession)
        (Except.error ⟨502, "upstream down"⟩)).1.documents = exAskState.documents ∧
     (handleAsk exAskState "why".data 7 (Except.ok exSession)
        (Except.error ⟨502, "upstream down"⟩)).1.sessions = exAskState.sessions ∧
     (handleAsk exAskState "why".data 7 (Except.ok exSession)
        (Except.error ⟨502, "upstream down"⟩)).1.currentSessionId =
       exAskState.currentSessionId) ∧
    ((handleAsk exNoSessionState "why".data 7 (Except.ok exSession)
        (Except.error ⟨502, "upstream down"⟩)).1.error = some "upstream down" ∧
     (handleAsk exNoSessionState "why".data 7 (Except.ok exSession)
        (Except.error ⟨502, "upstream down"⟩)).1.messages =
       exNoSessionState.messages ++
         [{ id := toString 7, role := Role.user, content := "why".data, citations := none }] ∧
     (handleAsk exNoSessionState "why".data 7 (Except.ok exSession)
        (Except.error ⟨502, "upstream down"⟩)).1.sessions =
       exSession :: exNoSessionState.sessions ∧
     (handleAsk exNoSessionState "why".data 7 (Except.ok exSession)
        (Except.error ⟨502, "upstream down"⟩)).1.currentSessionId = some exSession.id) ∧
    ((handleAsk exNoSessionState "why".data 7 (Except.error ⟨500, "boom"⟩)
        (Except.error ⟨502, "upstream down"⟩)).1.sessions = exNoSessionState.sessions ∧
     (handleAsk exNoSessionState "why".data 7 (Except.error ⟨500, "boom"⟩)
        (Except.error ⟨502, "upstream down"⟩)).1.currentSessionId =
       exNoSessionState.currentSessionId) := by
  have h1 := ask_failure_surfaces_error_keeps_optimistic_message exAskState "why".data 7
    exDoc (Except.ok exSession) ⟨502, "upstream down"⟩ rfl
  have h2 := ask_failure_surfaces_error_keeps_optimistic_message exNoSessionState
    "why".data 7 exDoc (Except.ok exSession) ⟨502, "upstream down"⟩ rfl
  have h3 := ask_failure_surfaces_error_keeps_optimistic_message exNoSessionState
    "why".data 7 exDoc (Except.error ⟨500, "boom"⟩) ⟨502, "upstream down"⟩ rfl
  exact ⟨⟨h1.1, h1.2.2.1, h1.2.2.2.1,
          (h1.2.2.2.2.1 "sess-1" rfl).1, (h1.2.2.2.2.1 "sess-1" rfl).2⟩,
         ⟨h2.1, h2.2.2.1,
          (h2.2.2.2.2.2.1 exSession rfl rfl).1, (h2.2.2.2.2.2.1 exSession rfl rfl).2⟩,
         (h3.2.2.2.2.2.2 ⟨500, "boom"⟩ rfl rfl).1,
         (h3.2.2.2.2.2.2 ⟨500, "boom"⟩ rfl rfl).2⟩

/-- Claim C3: on document selection, `fetchSessions` auto-resumes the session at
position 0 of the list returned for the document: it sets that session as current and
loads its messages; when the list is empty it makes no session current (the current
session id and the messages are left unchanged). -/
theorem fetchSessions_autoresume_most_recent
    (st : DocumentsState) (l : List ChatSession)
    (getResult : String → Except ApiError ChatSessionWithMessages) :
    (∀ s rest sw, l = s :: rest → getResult s.id = Except.ok sw →
      (fetchSessions st true (Except.ok l) getResult).currentSessionId = some s.id ∧
      (fetchSessions st true (Except.ok l) getResult).messages =
        sw.messages.map messageOfSessionMessage ∧
      (fetchSessions st true (Except.ok l) getResult).sessions = l) ∧
    (l = [] →
      (fetchSessions st true (Except.ok l) getResult).currentSessionId =
        st.currentSessionId ∧
      (fetchSessions st true (Except.ok l) getResult).messages = st.messages) := by
  constructor
  · rintro s rest sw rfl hget
    simp [fetchSessions, hget]
  · rintro rfl
    simp [fetchSessions]

/-- Witness for C3: the theorem applied to the one-element list `[exSession]` (auto-
resume) and to the empty list (no session becomes current). -/
theorem fetchSessions_autoresume_most_recent_witness :
    ((fetchSessions exNoSessionState true (Except.ok [exSession]) exGetSession).currentSessionId =
       some exSession.id ∧
     (fetchSessions exNoSessionState true (Except.ok [exSession]) exGetSession).messages =
       exSessionWithMessages.messages.map messageOfSessionMessage ∧
     (fetchSessions exNoSessionState true (Except.ok [exSession]) exGetSession).sessions =
       [exSession]) ∧
    ((fetchSessions exNoSessionState true (Except.ok []) exGetSession).currentSessionId =
       exNoSessionState.currentSessionId ∧
     (fetchSessions exNoSessionState true (Except.ok []) exGetSession).messages =
       exNoSessionState.messages) := by
  refine ⟨?_, ?_⟩
  · exact (fetchSessions_autoresume_most_recent exNoSessionState [exSession] exGetSession).1
      exSession [] exSessionWithMessages rfl (by simp [exGetSession, exSession])
  · exact (fetchSessions_autoresume_most_recent exNoSessionState [] exGetSession).2 rfl

/-- Counterexample to claim C4 as stated: `fetchDocuments` is a caller of the API
layer that does not report a failure — at a concrete state with no error set, a
failed `listDocuments` call leaves the page error state unset (the catch block only
logs to the console) and the document list unchanged. -/
theorem fetchDocuments_swallows_error :
    (fetchDocuments exAskState 0 (Except.error ⟨500, "boom"⟩)).error = none ∧
    (fetchDocuments exAskState 0 (Except.error ⟨500, "boom"⟩)).documents =
      exAskState.documents :=
  ⟨rfl, rfl⟩

/-- Claim C4 (amended): every HTTP response that is not ok is raised to the caller as
a structured `ApiError` carrying the status and the response's detail message, with a
fallback message when the body is not JSON — both by `handleResponse` and by
`exportSession`'s inlined check; user-action handlers such as `loadSession` surface
the error in the page error state, but the background fetchers `fetchDocuments` and
`fetchSessions` catch the error and only log it to the console, leaving the page
error state unchanged. -/
theorem api_errors_structured_fetchers_swallow
    (r : HttpResponse) (st : DocumentsState) (session : ChatSession)
    (e : ApiError) (now : Nat)
    (gR : String → Except ApiError ChatSessionWithMessages)
    (hr : r.ok = false) :
    handleResponse r = Except.error ⟨r.status, detailMessage r.body⟩ ∧
    exportSessionResult r = Except.error ⟨r.status, exportDetailMessage r.body⟩ ∧
    (r.body = HttpBody.notJson → detailMessage r.body = "Unknown error") ∧
    (loadSession st session (Except.error e)).error = some e.message ∧
    (fetchDocuments st now (Except.error e)).error = st.error ∧
    (fetchSessions st true (Except.error e) gR).error = st.error := by
  refine ⟨?_, ?_, ?_, rfl, rfl, rfl⟩
  · simp [handleResponse, hr]
  · simp [exportSessionResult, hr]
  · intro hb
    rw [hb]
    rfl

/-- Witness for amended C4: the theorem applied to a concrete 503 response whose body
is not JSON, and a concrete error value at the callers. -/
theorem api_errors_structured_fetchers_swallow_witness :
    handleResponse ⟨false, 503, HttpBody.notJson⟩ =
      Except.error ⟨503, detailMessage HttpBody.notJson⟩ ∧
    exportSessionResult ⟨false, 503, HttpBody.notJson⟩ =
      Except.error ⟨503, exportDetailMessage HttpBody.notJson⟩ ∧
    (HttpBody.notJson = HttpBody.notJson → detailMessage HttpBody.notJson = "Unknown error") ∧
    (loadSession exAskState exSession (Except.error ⟨503, "Unknown error"⟩)).error =
      some "Unknown error" ∧
    (fetchDocuments exAskState 0 (Except.error ⟨503, "Unknown error"⟩)).error =
      exAskState.error ∧
    (fetchSessions exAskState true (Except.error ⟨503, "Unknown error"⟩) exGetSession).error =
      exAskState.error :=
  api_errors_structured_fetchers_swallow ⟨false, 503, HttpBody.notJson⟩ exAskState
    exSession ⟨503, "Unknown error"⟩ 0 exGetSession rfl

/-- Claim C5: for every file offered for upload whose extension is outside the
allow-set {.pdf, .txt, .md}, the upload is rejected with a validation error before
ingestion (no chunks are ingested and the component surfaces the error), whether the
file was dropped onto the drop zone or chosen via the file picker.  The validating
`upload` operation is backend code modelled from the spec (`uploadModel`). -/
theorem upload_rejects_unsupported_extension
    (st : FileUploadState) (f : FileMeta) (chunksOf : JStr → Nat)
    (hext : allowedExtensions.contains (fileExtension f.name) = false) :
    uploadModel f.name chunksOf = UploadOutcome.rejectedUnsupportedFormat ∧
    ingestedChunks chunksOf (handleDrop st (some f)) = none ∧
    ingestedChunks chunksOf (handleFileSelect st (some f)) = none ∧
    (handleUpload (handleDrop st (some f)) (onUploadViaBackend chunksOf)).error =
      some "Unsupported file format" ∧
    (handleUpload (handleFileSelect st (some f)) (onUploadViaBackend chunksOf)).error =
      some "Unsupported file format" := by
  have hmem : fileExtension f.name ∉ allowedExtensions := by simpa using hext
  have hm : uploadModel f.name chunksOf = UploadOutcome.rejectedUnsupportedFormat := by
    simp [uploadModel, hmem]
  refine ⟨hm, ?_, ?_, ?_, ?_⟩ <;>
    simp [ingestedChunks, handleDrop, handleFileSelect, handleUpload, onUploadViaBackend, hm]

/-- Witness for C5: the theorem applied to a concrete `.exe` file. -/
theorem upload_rejects_unsupported_extension_witness :
    uploadModel exBadFile.name (fun _ => 2) = UploadOutcome.rejectedUnsupportedFormat ∧
    ingestedChunks (fun _ => 2) (handleDrop exUploadState (some exBadFile)) = none ∧
    ingestedChunks (fun _ => 2) (handleFileSelect exUploadState (some exBadFile)) = none ∧
    (handleUpload (handleDrop exUploadState (some exBadFile))
        (onUploadViaBackend (fun _ => 2))).error = some "Unsupported file format" ∧
    (handleUpload (handleFileSelect exUploadState (some exBadFile))
        (onUploadViaBackend (fun _ => 2))).error = some "Unsupported file format" :=
  upload_rejects_unsupported_extension exUploadState exBadFile (fun _ => 2) (by decide)

/-- Claim C6: the interpret page initializes tone to insightful and style to concise,
and the Clear action resets input, context, result, error, tone, and style back to
that default state. -/
theorem interpret_defaults_and_clear (st : InterpretState) :
    initialInterpretState.tone = Tone.insightful ∧
    initialInterpretState.style = Style.concise ∧
    (handleClear st).input = [] ∧ (handleClear st).context = [] ∧
    (handleClear st).interpretation = none ∧ (handleClear st).error = none ∧
    (handleClear st).tone = Tone.insightful ∧ (handleClear st).style = Style.concise :=
  ⟨rfl, rfl, rfl, rfl, rfl, rfl, rfl, rfl⟩

/-- Claim C7: the tone and style parameters range over exactly the fixed enumerated
sets — the UI selector lists enumerate exactly those values, and every value the
`Tone`/`Style` types admit is in the corresponding set. -/
theorem tone_style_enumerations :
    TONES.map (fun t => t.value.str) =
      ["insightful", "supportive", "analytical", "creative", "direct"] ∧
    STYLES.map (fun s => s.value.str) =
      ["concise", "detailed", "bullet_points", "narrative"] ∧
    (∀ t : Tone, t.str ∈ ["insightful", "supportive", "analytical", "creative", "direct"]) ∧
    (∀ s : Style, s.str ∈ ["concise", "detailed", "bullet_points", "narrative"]) := by
  refine ⟨rfl, rfl, ?_, ?_⟩
  · intro t
    cases t <;> simp [Tone.str]
  · intro s
    cases s <;> simp [Style.str]

/-- Claim C8: the chat input never emits an empty message — `onSend` is invoked only
when the trimmed input is non-empty, no send is in flight, and the input is not
disabled, and the string passed is the trimmed input. -/
theorem chat_input_no_empty_send (input : JStr) (isLoading disabled : Bool) (m : JStr)
    (h : handleSubmit input isLoading disabled = some m) :
    m = jsTrim input ∧ m ≠ [] ∧ isLoading = false ∧ disabled = false := by
  unfold handleSubmit at h
  split at h
  · exact absurd h (by simp)
  · next hc =>
    push_neg at hc
    obtain ⟨h1, h2, h3⟩ := hc
    have hm : m = jsTrim input := (Option.some.inj h).symm
    refine ⟨hm, ?_, ?_, ?_⟩
    · rw [hm]
      exact h1
    · exact Bool.not_eq_true isLoading |>.mp h2
    · exact Bool.not_eq_true disabled |>.mp h3

/-- Witness for C8: the theorem applied to the concrete input `" hi "`. -/
theorem chat_input_no_empty_send_witness :
    "hi".data = jsTrim " hi ".data ∧ "hi".data ≠ ([] : JStr) ∧
      false = false ∧ false = false :=
  chat_input_no_empty_send " hi ".data false false "hi".data (by decide)

/-- Claim C9: citation truncation is a faithful prefix — the displayed text equals
the full citation text exactly when the text has at most 150 characters or the card
is expanded, and otherwise equals the first 150 characters followed by '...';
expanding recovers the full text. -/
theorem citation_truncation_faithful (t : JStr) (e : Bool) :
    displayText t true = t ∧
    (t.length ≤ 150 → displayText t e = t) ∧
    (150 < t.length → displayText t false = t.take 150 ++ "...".data) := by
  refine ⟨by simp [displayText], ?_, ?_⟩
  · intro h
    have hl : isLongText t = false := by
      simp [isLongText]
      omega
    simp [displayText, hl]
  · intro h
    have hl : isLongText t = true := by
      simp [isLongText]
      omega
    simp [displayText, hl]

/-- Witness for C9: the theorem applied to a short text and to a 151-character text. -/
theorem citation_truncation_faithful_witness :
    displayText "ok".data true = "ok".data ∧
    displayText "ok".data false = "ok".data ∧
    displayText (List.replicate 151 'a') false =
      (List.replicate 151 'a').take 150 ++ "...".data :=
  ⟨(citation_truncation_faithful "ok".data true).1,
   (citation_truncation_faithful "ok".data false).2.1 (by decide),
   (citation_truncation_faithful (List.replicate 151 'a') false).2.2
     (by rw [List.length_replicate]; omega)⟩

/-- Claim C10: the confidence display is an order-preserving map into [0,100] — for
confidence in [0,1] the rendered percentage equals round(confidence × 100), lies in
[0,100], and is monotone non-decreasing in the confidence. -/
theorem confidence_percentage_bounded_monotone (c c' : ℚ) (h0 : 0 ≤ c) (h1 : c ≤ 1) :
    percentage c = round (c * 100) ∧
    0 ≤ percentage c ∧ percentage c ≤ 100 ∧
    (c ≤ c' → percentage c ≤ percentage c') := by
  refine ⟨rfl, ?_, ?_, ?_⟩
  · have h : (0 : ℤ) = ⌊(0 : ℚ) + 1 / 2⌋ := by norm_num
    show 0 ≤ round (c * 100)
    rw [round_eq, h]
    exact Int.floor_le_floor (by linarith)
  · have h : (100 : ℤ) = ⌊(100 : ℚ) + 1 / 2⌋ := by norm_num
    show round (c * 100) ≤ 100
    rw [round_eq, h]
    exact Int.floor_le_floor (by linarith)
  · intro hcc
    show round (c * 100) ≤ round (c' * 100)
    rw [round_eq, round_eq]
    exact Int.floor_le_floor (by linarith)

/-- Witness for C10: the theorem applied at confidence one half against three
quarters. -/
theorem confidence_percentage_bounded_monotone_witness :
    percentage ((1 : ℚ) / 2) = round (((1 : ℚ) / 2) * 100) ∧
    0 ≤ percentage ((1 : ℚ) / 2) ∧ percentage ((1 : ℚ) / 2) ≤ 100 ∧
    ((1 : ℚ) / 2 ≤ (3 : ℚ) / 4 →
      percentage ((1 : ℚ) / 2) ≤ percentage ((3 : ℚ) / 4)) :=
  confidence_percentage_bounded_monotone ((1 : ℚ) / 2) ((3 : ℚ) / 4)
    (by norm_num) (by norm_num)

end Cortexa
